import Mathlib

/-!
# AmiPets API: the adoption controller

A shallow embedding of `src/controllers/adocaoController.js`.

The controller is a class of static async methods over an imported persistence
client.  Each method is embedded as a pure function from the database state and
the request to the HTTP response and the database state after the request.  The
`try`/`catch` of every method is embedded by explicit case analysis on the
outcome of each persistence call, in the order in which the source awaits them;
the state returned from the `catch` branch is the state reached by the calls
that had already succeeded.
-/

namespace AmiPets

/-! ## Data model -/

/-- Row of the `pet` table: identifier, descriptive attributes, status flag. -/
structure Pet where
  id : Int
  nome : String
  status : String
deriving DecidableEq, Repr

/-- Row of the `adotante` table: identifier and profile attributes. -/
structure Adotante where
  id : Int
  nome : String
deriving DecidableEq, Repr

/-- Row of the `adocao` table: identifier, the two foreign keys and the creation
timestamp (milliseconds since the epoch). -/
structure AdocaoRow where
  id : Int
  adotanteId : Int
  petId : Int
  dataAdocao : Int
deriving DecidableEq, Repr

/-- Database state: the three tables, each in the order in which the
persistence layer returns its rows. -/
structure Db where
  pets : List Pet
  adotantes : List Adotante
  adocoes : List AdocaoRow
deriving DecidableEq, Repr

/-- Tables reachable through `prismaClient[type]`. -/
inductive Table where
  | pet
  | adotante
  | adocao
deriving DecidableEq, Repr

/-- Operations of the persistence client used by the controller. -/
inductive Op where
  | findUnique
  | findMany
  | create
  | update
  | delete
deriving DecidableEq, Repr

/-- Environment of one request: which persistence calls of this request are
rejected by the persistence layer for a reason outside the database contents
(connection loss, time-out).  Within one request every pair of table and
operation is called at most once, so one flag per pair describes every way in
which the calls of a request can throw. -/
structure Faults where
  fails : Table → Op → Bool

/-- Environment in which no persistence call fails. -/
def Faults.none : Faults := ⟨fun _ _ => false⟩

/-- Environment in which exactly the given call fails. -/
def Faults.only (t : Table) (o : Op) : Faults :=
  ⟨fun t2 o2 => decide (t2 = t) && decide (o2 = o)⟩

/-- Exception raised by a persistence call. -/
inductive PrismaError where
  | unavailable
  | recordNotFound
  | uniqueConstraint
  | validation
deriving DecidableEq, Repr

/-- Row of `adocao` as returned with `include: { adotante: true, pet: true }`. -/
structure AdocaoJoined where
  row : AdocaoRow
  adotante : Option Adotante
  pet : Option Pet
deriving DecidableEq, Repr

/-- Modelled from the spec: the entity wrapper `Adocao` of `entities/adocao.js`,
a thin value object holding the row fields; `dataAdocao` holds the formatted
date string placed there before the object is serialised, `adotante` and `pet`
are present only on the endpoints that read with `include`. -/
structure Adocao where
  id : Int
  adotanteId : Int
  petId : Int
  dataAdocao : String
  adotante : Option Adotante
  pet : Option Pet
deriving DecidableEq, Repr

/-- JSON body of a response. -/
inductive Body where
  | error (msg : String)
  | adocao (a : Adocao)
  | adocoes (l : List Adocao)
  | empty
deriving DecidableEq, Repr

/-- HTTP response: status code and body. -/
structure Response where
  status : Nat
  body : Body
deriving DecidableEq, Repr

/-- Body of `POST /adocoes` and `PUT /adocoes/:id`. -/
structure AdocaoBody where
  adotanteId : Int
  petId : Int
deriving DecidableEq, Repr

/-! ## Persistence client

The module `database/prismaClient.js` and the schema it is generated from are
not part of the sources at hand; the operations the controller calls are
modelled from the specification.  One fact about the schema is fixed by the
source itself: `createAdocao` selects an adoption with
`findUnique({ where: { petId } })`, a selection the client offers for unique
keys only, so `petId` is a unique key of the `adocao` table and the table
rejects a write after which two rows would hold the written `petId`. -/

/-- Modelled from the spec: `prismaClient.pet.findUnique({ where: { id } })`,
the row with that primary key or `null`. -/
def petFindUnique (fl : Faults) (db : Db) (id : Int) : Except PrismaError (Option Pet) :=
  if fl.fails .pet .findUnique then .error .unavailable
  else .ok (db.pets.find? (fun p => decide (p.id = id)))

/-- Modelled from the spec: `prismaClient.adotante.findUnique({ where: { id } })`. -/
def adotanteFindUnique (fl : Faults) (db : Db) (id : Int) :
    Except PrismaError (Option Adotante) :=
  if fl.fails .adotante .findUnique then .error .unavailable
  else .ok (db.adotantes.find? (fun a => decide (a.id = id)))

/-- Modelled from the spec: `prismaClient.adocao.findUnique({ where: { id } })`. -/
def adocaoFindUniqueById (fl : Faults) (db : Db) (id : Int) :
    Except PrismaError (Option AdocaoRow) :=
  if fl.fails .adocao .findUnique then .error .unavailable
  else .ok (db.adocoes.find? (fun a => decide (a.id = id)))

/-- Modelled from the spec: `prismaClient.adocao.findUnique({ where: { petId } })`,
the uniqueness lookup that precedes the insert. -/
def adocaoFindUniqueByPetId (fl : Faults) (db : Db) (petId : Int) :
    Except PrismaError (Option AdocaoRow) :=
  if fl.fails .adocao .findUnique then .error .unavailable
  else .ok (db.adocoes.find? (fun a => decide (a.petId = petId)))

/-- Modelled from the spec: the typed operations of the persistence client take
an integer where a row is selected by a number; a `NaN` (here `none`) is
rejected with an exception before any query is issued. -/
def validateInt (v : Option Int) : Except PrismaError Int :=
  match v with
  | none => .error .validation
  | some n => .ok n

/-- Modelled from the spec: the identifier the persistence layer gives to a new
`adocao` row, one more than the largest identifier in the table (and at least 1),
hence different from every identifier in the table. -/
def nextAdocaoId (rows : List AdocaoRow) : Int :=
  rows.foldr (fun a m => max a.id m) 0 + 1

/-- Modelled from the spec: `prismaClient.adocao.create({ data })`, which
appends a row with a new identifier and the current time as `dataAdocao` and
returns it, and raises when a stored row already holds the unique key `petId`. -/
def adocaoCreate (fl : Faults) (now : Int) (db : Db) (adotanteId petId : Int) :
    Except PrismaError (AdocaoRow × Db) :=
  if fl.fails .adocao .create then .error .unavailable
  else
    match db.adocoes.find? (fun a => decide (a.petId = petId)) with
    | some _ => .error .uniqueConstraint
    | none =>
      let row : AdocaoRow :=
        { id := nextAdocaoId db.adocoes, adotanteId := adotanteId, petId := petId,
          dataAdocao := now }
      .ok (row, { db with adocoes := db.adocoes ++ [row] })

/-- Modelled from the spec: `prismaClient.pet.update({ where: { id }, data: { status } })`,
which raises when no row has that identifier. -/
def petUpdateStatus (fl : Faults) (db : Db) (id : Int) (status : String) :
    Except PrismaError (Pet × Db) :=
  if fl.fails .pet .update then .error .unavailable
  else
    match db.pets.find? (fun p => decide (p.id = id)) with
    | none => .error .recordNotFound
    | some p =>
      let pets := db.pets.map (fun q => if q.id = id then { q with status := status } else q)
      .ok ({ p with status := status }, { db with pets := pets })

/-- Modelled from the spec: `prismaClient.adocao.update({ where: { id }, data })`,
which overwrites the two foreign keys of the row with that identifier; it
raises when there is none, and when after the write more than one row would
hold the unique key `petId`, that is when another row already holds it. -/
def adocaoUpdate (fl : Faults) (db : Db) (id adotanteId petId : Int) :
    Except PrismaError (AdocaoRow × Db) :=
  if fl.fails .adocao .update then .error .unavailable
  else
    match db.adocoes.find? (fun a => decide (a.id = id)) with
    | none => .error .recordNotFound
    | some a =>
      let adocoes := db.adocoes.map (fun b =>
        if b.id = id then { b with adotanteId := adotanteId, petId := petId } else b)
      if 1 < adocoes.countP (fun b => decide (b.petId = petId)) then .error .uniqueConstraint
      else
        .ok ({ a with adotanteId := adotanteId, petId := petId },
          { db with adocoes := adocoes })

/-- Modelled from the spec: `prismaClient.adocao.delete({ where: { id } })`,
which removes the row with that identifier and raises when there is none. -/
def adocaoDelete (fl : Faults) (db : Db) (id : Int) : Except PrismaError (AdocaoRow × Db) :=
  if fl.fails .adocao .delete then .error .unavailable
  else
    match db.adocoes.find? (fun a => decide (a.id = id)) with
    | none => .error .recordNotFound
    | some a =>
      .ok (a, { db with adocoes := db.adocoes.filter (fun b => !decide (b.id = id)) })

/-- Join of one `adocao` row with the rows its foreign keys refer to. -/
def joinAdocao (db : Db) (a : AdocaoRow) : AdocaoJoined :=
  { row := a,
    adotante := db.adotantes.find? (fun x => decide (x.id = a.adotanteId)),
    pet := db.pets.find? (fun p => decide (p.id = a.petId)) }

/-- Modelled from the spec: `prismaClient.adocao.findMany({ include })`. -/
def adocaoFindManyAll (fl : Faults) (db : Db) : Except PrismaError (List AdocaoJoined) :=
  if fl.fails .adocao .findMany then .error .unavailable
  else .ok (db.adocoes.map (joinAdocao db))

/-- Modelled from the spec:
`prismaClient.adocao.findMany({ where: { adotanteId }, include })`. -/
def adocaoFindManyByAdotanteId (fl : Faults) (db : Db) (adotanteId : Int) :
    Except PrismaError (List AdocaoJoined) :=
  if fl.fails .adocao .findMany then .error .unavailable
  else .ok ((db.adocoes.filter (fun a => decide (a.adotanteId = adotanteId))).map
    (joinAdocao db))

/-! ## Built-ins and utilities used by the controller -/

/-- White space and line terminators that the built-in `parseInt` skips at the
start of its argument. -/
def isStrWhiteSpaceChar (c : Char) : Bool :=
  let n := c.toNat
  n == 9 || n == 10 || n == 11 || n == 12 || n == 13 || n == 32 || n == 160 ||
  n == 0x1680 || (decide (0x2000 ≤ n) && decide (n ≤ 0x200A)) || n == 0x2028 ||
  n == 0x2029 || n == 0x202F || n == 0x205F || n == 0x3000 || n == 0xFEFF

/-- Value of a decimal digit, `none` for any other character. -/
def digitValue (c : Char) : Option Nat :=
  if 48 ≤ c.toNat ∧ c.toNat ≤ 57 then some (c.toNat - 48) else none

/-- Longest run of decimal digits at the start of the list, read as a number;
the accumulator is `none` until the first digit has been read. -/
def parseDigits : List Char → Option Nat → Option Nat
  | [], acc => acc
  | c :: cs, acc =>
    match digitValue c with
    | none => acc
    | some d => parseDigits cs (some (10 * acc.getD 0 + d))

/-- Built-in `parseInt(s, 10)`: leading white space is skipped, one sign is
accepted, the longest run of decimal digits is read and what follows it is
ignored; `none` stands for `NaN`.  The rounding of values beyond `2 ^ 53` to a
double is not modelled. -/
def parseInt (s : String) : Option Int :=
  let rest := s.toList.dropWhile isStrWhiteSpaceChar
  match rest with
  | '-' :: r =>
    match parseDigits r none with
    | none => none
    | some n => some (-(n : Int))
  | '+' :: r =>
    match parseDigits r none with
    | none => none
    | some n => some (n : Int)
  | r =>
    match parseDigits r none with
    | none => none
    | some n => some (n : Int)

/-- Built-in `new Date(d)` applied to the `Date` stored in a row: a date with
the same time value. -/
def newDate (d : Int) : Int := d

/-- Instance `new Adocao(row)` with `dataAdocao` set to the formatted string;
`createAdocao` builds it from a row read without `include`. -/
def Adocao.ofRow (a : AdocaoRow) (dataAdocao : String) : Adocao :=
  { id := a.id, adotanteId := a.adotanteId, petId := a.petId, dataAdocao := dataAdocao,
    adotante := none, pet := none }

/-- Instance `new Adocao({ ...adocaoDb, dataAdocao })` built from a row read
with `include`. -/
def Adocao.ofJoined (j : AdocaoJoined) (dataAdocao : String) : Adocao :=
  { id := j.row.id, adotanteId := j.row.adotanteId, petId := j.row.petId,
    dataAdocao := dataAdocao, adotante := j.adotante, pet := j.pet }

/-! ## The controller

`formatDate` of `utils/dateUtils.js` is a parameter; `now` is the time at which
the persistence layer stamps a new row. -/

/-- Source `AdocaoController.entityExists(type, id)`: a lookup by primary key in
the table named by `type`, `entity !== null`.  An exception of the lookup is
not caught here. -/
def entityExists (fl : Faults) (db : Db) (type : Table) (id : Int) : Except PrismaError Bool :=
  match type with
  | .pet =>
    match petFindUnique fl db id with
    | .error e => .error e
    | .ok entity => .ok entity.isSome
  | .adotante =>
    match adotanteFindUnique fl db id with
    | .error e => .error e
    | .ok entity => .ok entity.isSome
  | .adocao =>
    match adocaoFindUniqueById fl db id with
    | .error e => .error e
    | .ok entity => .ok entity.isSome

/-- Source `AdocaoController.createAdocao(req, res)` with
`req.body = { adotanteId, petId }`. -/
def createAdocao (formatDate : Int → String) (fl : Faults) (now : Int) (db : Db)
    (body : AdocaoBody) : Response × Db :=
  let caught : Response := ⟨500, .error "Erro ao criar a adoção."⟩
  match entityExists fl db .pet body.petId with
  | .error _ => (caught, db)
  | .ok petExists =>
  match entityExists fl db .adotante body.adotanteId with
  | .error _ => (caught, db)
  | .ok adotanteExists =>
  if !petExists then (⟨404, .error "Pet não encontrado."⟩, db)
  else if !adotanteExists then (⟨404, .error "Adotante não encontrado."⟩, db)
  else
  match adocaoFindUniqueByPetId fl db body.petId with
  | .error _ => (caught, db)
  | .ok (some _) => (⟨400, .error "Este pet já foi adotado."⟩, db)
  | .ok none =>
  match adocaoCreate fl now db body.adotanteId body.petId with
  | .error _ => (caught, db)
  | .ok (novaAdocaoDb, db1) =>
  match petUpdateStatus fl db1 body.petId "1" with
  | .error _ => (caught, db1)
  | .ok (_, db2) =>
    (⟨201, .adocao (Adocao.ofRow novaAdocaoDb (formatDate novaAdocaoDb.dataAdocao))⟩, db2)

/-- Source `AdocaoController.getAllAdocoes(req, res)`. -/
def getAllAdocoes (formatDate : Int → String) (fl : Faults) (db : Db) : Response × Db :=
  match adocaoFindManyAll fl db with
  | .error _ =>
    (⟨500, .error "Erro ao buscar as adoções. Verifique se pet ou adotante existe."⟩, db)
  | .ok adocoesDb =>
    (⟨200, .adocoes (adocoesDb.map
      (fun adocaoDb => Adocao.ofJoined adocaoDb (formatDate adocaoDb.row.dataAdocao)))⟩, db)

/-- Source `AdocaoController.getAdocaoById(req, res)` with `req.params = { id }`.
A `NaN` identifier is rejected by the persistence client, inside the `try`, as
in every method that parses a route parameter. -/
def getAdocaoById (formatDate : Int → String) (fl : Faults) (db : Db) (id : String) :
    Response × Db :=
  let caught : Response := ⟨500, .error "Erro ao buscar a adoção."⟩
  match validateInt (parseInt id) with
  | .error _ => (caught, db)
  | .ok n =>
  match adocaoFindUniqueById fl db n with
  | .error _ => (caught, db)
  | .ok (some adocaoDb) =>
    (⟨200, .adocao (Adocao.ofJoined (joinAdocao db adocaoDb)
      (formatDate (newDate adocaoDb.dataAdocao)))⟩, db)
  | .ok none => (⟨404, .error "Adoção não encontrada."⟩, db)

/-- Source `AdocaoController.updateAdocao(req, res)` with `req.params = { id }`
and `req.body = { adotanteId, petId }`.  The identifier is parsed where the
update is issued, after the two existence checks. -/
def updateAdocao (formatDate : Int → String) (fl : Faults) (db : Db) (id : String)
    (body : AdocaoBody) : Response × Db :=
  let caught : Response := ⟨500, .error "Erro ao atualizar a adoção."⟩
  match entityExists fl db .pet body.petId with
  | .error _ => (caught, db)
  | .ok petExists =>
  match entityExists fl db .adotante body.adotanteId with
  | .error _ => (caught, db)
  | .ok adotanteExists =>
  if !petExists then (⟨404, .error "Pet não encontrado."⟩, db)
  else if !adotanteExists then (⟨404, .error "Adotante não encontrado."⟩, db)
  else
  match validateInt (parseInt id) with
  | .error _ => (caught, db)
  | .ok n =>
  match adocaoUpdate fl db n body.adotanteId body.petId with
  | .error _ => (caught, db)
  | .ok (adocaoAtualizadaDb, db1) =>
    (⟨200, .adocao (Adocao.ofRow adocaoAtualizadaDb
      (formatDate (newDate adocaoAtualizadaDb.dataAdocao)))⟩, db1)

/-- Source `AdocaoController.deleteAdocao(req, res)` with `req.params = { id }`. -/
def deleteAdocao (fl : Faults) (db : Db) (id : String) : Response × Db :=
  let caught : Response := ⟨500, .error "Erro ao excluir a adoção."⟩
  match validateInt (parseInt id) with
  | .error _ => (caught, db)
  | .ok n =>
  match adocaoDelete fl db n with
  | .error _ => (caught, db)
  | .ok (_, db1) => (⟨204, .empty⟩, db1)

/-- Source `AdocaoController.getAdocoesByAdotanteId(req, res)` with
`req.params = { adotanteId }`. -/
def getAdocoesByAdotanteId (formatDate : Int → String) (fl : Faults) (db : Db)
    (adotanteId : String) : Response × Db :=
  let caught : Response := ⟨500, .error "Erro ao buscar adoções para o adotante especificado."⟩
  match validateInt (parseInt adotanteId) with
  | .error _ => (caught, db)
  | .ok n =>
  match adocaoFindManyByAdotanteId fl db n with
  | .error _ => (caught, db)
  | .ok adocoes =>
    (⟨200, .adocoes (adocoes.map
      (fun adocaoDb => Adocao.ofJoined adocaoDb (formatDate (newDate adocaoDb.row.dataAdocao))))⟩,
     db)

/-! ## States named in the statements -/

/-- Row inserted by a successful `createAdocao`. -/
def novaAdocaoRow (now : Int) (db : Db) (body : AdocaoBody) : AdocaoRow :=
  { id := nextAdocaoId db.adocoes, adotanteId := body.adotanteId, petId := body.petId,
    dataAdocao := now }

/-- Pet table after the status of pet `petId` has been set to adopted. -/
def petsAdotado (pets : List Pet) (petId : Int) : List Pet :=
  pets.map (fun q => if q.id = petId then { q with status := "1" } else q)

/-- Adoption table after the foreign keys of the rows with identifier `n` have
been overwritten. -/
def adocoesAtualizadas (adocoes : List AdocaoRow) (n adotanteId petId : Int) :
    List AdocaoRow :=
  adocoes.map (fun b =>
    if b.id = n then { b with adotanteId := adotanteId, petId := petId } else b)

/-- Invariant of the data model: no two `adocao` rows have the same `petId`. -/
def OneAdocaoPerPet (db : Db) : Prop :=
  (db.adocoes.map AdocaoRow.petId).Nodup

instance (db : Db) : Decidable (OneAdocaoPerPet db) := by
  unfold OneAdocaoPerPet; infer_instance

/-- Request to one of the three operations that write to the `adocao` table,
with the environment in which it is served. -/
inductive Request where
  | create (fl : Faults) (now : Int) (body : AdocaoBody)
  | update (fl : Faults) (id : String) (body : AdocaoBody)
  | delete (fl : Faults) (id : String)

/-- Database state after one request has been served. -/
def step (formatDate : Int → String) (db : Db) : Request → Db
  | .create fl now body => (createAdocao formatDate fl now db body).2
  | .update fl id body => (updateAdocao formatDate fl db id body).2
  | .delete fl id => (deleteAdocao fl db id).2

/-- Database state after a sequence of requests has been served one after the
other. -/
def run (formatDate : Int → String) (db : Db) (rs : List Request) : Db :=
  rs.foldl (step formatDate) db

/-! ## Sample data -/

/-- Sample state: pet 5 available, pet 6 adopted by adopter 2. -/
def dbSample : Db :=
  { pets := [⟨5, "Rex", "0"⟩, ⟨6, "Mia", "1"⟩],
    adotantes := [⟨1, "Ana"⟩, ⟨2, "Bia"⟩],
    adocoes := [⟨1, 2, 6, 1000⟩] }

/-- Sample date formatter. -/
def fmtSample (t : Int) : String := if t < 2000 then "antes" else "depois"

/-- State of the scenario of the spec: adopter 1 and the available pet 5. -/
def dbScenario : Db :=
  { pets := [⟨5, "Rex", "0"⟩], adotantes := [⟨1, "Ana"⟩], adocoes := [] }

/-- Sample state with two adoptions: pet 6 by adopter 2, pet 5 by adopter 1. -/
def dbTwo : Db :=
  { pets := [⟨5, "Rex", "1"⟩, ⟨6, "Mia", "1"⟩],
    adotantes := [⟨1, "Ana"⟩, ⟨2, "Bia"⟩],
    adocoes := [⟨1, 2, 6, 1000⟩, ⟨2, 1, 5, 2500⟩] }

/-- Sample state with the two adoptions of `dbTwo` and a third, available pet. -/
def dbThree : Db :=
  { pets := [⟨5, "Rex", "1"⟩, ⟨6, "Mia", "1"⟩, ⟨7, "Tom", "0"⟩],
    adotantes := [⟨1, "Ana"⟩, ⟨2, "Bia"⟩],
    adocoes := [⟨1, 2, 6, 1000⟩, ⟨2, 1, 5, 2500⟩] }

/-- Sample state without adoptions: two available pets and two adopters. -/
def dbInicial : Db :=
  { pets := [⟨5, "Rex", "0"⟩, ⟨6, "Mia", "0"⟩],
    adotantes := [⟨1, "Ana"⟩, ⟨2, "Bia"⟩],
    adocoes := [] }

/-! # Theorems

## Lookups -/

theorem petFindUnique_ok (fl : Faults) (db : Db) (id : Int)
    (h : fl.fails .pet .findUnique = false) :
    petFindUnique fl db id = .ok (db.pets.find? (fun p => decide (p.id = id))) := by
  simp [petFindUnique, h]

theorem adotanteFindUnique_ok (fl : Faults) (db : Db) (id : Int)
    (h : fl.fails .adotante .findUnique = false) :
    adotanteFindUnique fl db id = .ok (db.adotantes.find? (fun a => decide (a.id = id))) := by
  simp [adotanteFindUnique, h]

theorem entityExists_pet (fl : Faults) (db : Db) (id : Int)
    (h : fl.fails .pet .findUnique = false) :
    entityExists fl db .pet id = .ok (db.pets.find? (fun p => decide (p.id = id))).isSome := by
  simp [entityExists, petFindUnique_ok fl db id h]

theorem entityExists_adotante (fl : Faults) (db : Db) (id : Int)
    (h : fl.fails .adotante .findUnique = false) :
    entityExists fl db .adotante id
      = .ok (db.adotantes.find? (fun a => decide (a.id = id))).isSome := by
  simp [entityExists, adotanteFindUnique_ok fl db id h]

theorem pet_find_isSome (db : Db) (id : Int) :
    (db.pets.find? (fun p => decide (p.id = id))).isSome = true ↔ ∃ p ∈ db.pets, p.id = id := by
  simp [List.find?_isSome]

theorem adotante_find_isSome (db : Db) (id : Int) :
    (db.adotantes.find? (fun a => decide (a.id = id))).isSome = true
      ↔ ∃ a ∈ db.adotantes, a.id = id := by
  simp [List.find?_isSome]

theorem adocao_find_petId_isSome (db : Db) (petId : Int) :
    (db.adocoes.find? (fun a => decide (a.petId = petId))).isSome = true
      ↔ ∃ a ∈ db.adocoes, a.petId = petId := by
  simp [List.find?_isSome]

/-- A request whose pet or adopter does not exist is answered with 404 and an
error body, and nothing is written. -/
theorem createAdocao_missing_key (formatDate : Int → String) (fl : Faults) (now : Int) (db : Db)
    (body : AdocaoBody)
    (hfp : fl.fails .pet .findUnique = false) (hfa : fl.fails .adotante .findUnique = false)
    (hmiss : (¬ ∃ p ∈ db.pets, p.id = body.petId) ∨
      (¬ ∃ a ∈ db.adotantes, a.id = body.adotanteId)) :
    (createAdocao formatDate fl now db body).1.status = 404 ∧
    (∃ msg, (createAdocao formatDate fl now db body).1.body = Body.error msg) ∧
    (createAdocao formatDate fl now db body).2 = db := by
  have hp := pet_find_isSome db body.petId
  have ha := adotante_find_isSome db body.adotanteId
  simp only [createAdocao, entityExists_pet fl db _ hfp, entityExists_adotante fl db _ hfa]
  cases hpe : (db.pets.find? (fun p => decide (p.id = body.petId))).isSome
  · simp
  · cases hae : (db.adotantes.find? (fun a => decide (a.id = body.adotanteId))).isSome
    · simp
    · rw [hpe] at hp; rw [hae] at ha
      rcases hmiss with h | h
      · exact absurd (hp.mp rfl) h
      · exact absurd (ha.mp rfl) h

/-- C1: when the pet or the adopter of the request does not exist (and the two
existence lookups are answered), `createAdocao` responds 404 with a body
`{error: <string>}` and the database state is the initial one: no `adocao` row
is created and no `pet` row is modified. -/
theorem createAdocao_not_found (formatDate : Int → String) (fl : Faults) (now : Int) (db : Db)
    (body : AdocaoBody)
    (hfp : fl.fails .pet .findUnique = false) (hfa : fl.fails .adotante .findUnique = false)
    (hmiss : (¬ ∃ p ∈ db.pets, p.id = body.petId) ∨
      (¬ ∃ a ∈ db.adotantes, a.id = body.adotanteId)) :
    (createAdocao formatDate fl now db body).1.status = 404 ∧
    (∃ msg, (createAdocao formatDate fl now db body).1.body = Body.error msg) ∧
    (createAdocao formatDate fl now db body).2 = db :=
  createAdocao_missing_key formatDate fl now db body hfp hfa hmiss

theorem createAdocao_not_found_witness :
    (createAdocao fmtSample Faults.none 2500 dbSample ⟨1, 9⟩).1.status = 404 ∧
    (∃ msg, (createAdocao fmtSample Faults.none 2500 dbSample ⟨1, 9⟩).1.body = Body.error msg) ∧
    (createAdocao fmtSample Faults.none 2500 dbSample ⟨1, 9⟩).2 = dbSample :=
  createAdocao_not_found fmtSample Faults.none 2500 dbSample ⟨1, 9⟩ rfl rfl
    (Or.inl (by decide))

/-- A request for a pet that already has an adoption is answered with 400 and
nothing is written. -/
theorem createAdocao_pet_taken (formatDate : Int → String) (fl : Faults) (now : Int)
    (db : Db) (body : AdocaoBody)
    (hfp : fl.fails .pet .findUnique = false) (hfa : fl.fails .adotante .findUnique = false)
    (hfc : fl.fails .adocao .findUnique = false)
    (hpet : ∃ p ∈ db.pets, p.id = body.petId)
    (hadot : ∃ a ∈ db.adotantes, a.id = body.adotanteId)
    (hadoc : ∃ a ∈ db.adocoes, a.petId = body.petId) :
    createAdocao formatDate fl now db body
      = (⟨400, Body.error "Este pet já foi adotado."⟩, db) := by
  have hp := (pet_find_isSome db body.petId).mpr hpet
  have ha := (adotante_find_isSome db body.adotanteId).mpr hadot
  have hc := (adocao_find_petId_isSome db body.petId).mpr hadoc
  simp only [createAdocao, entityExists_pet fl db _ hfp, entityExists_adotante fl db _ hfa,
    adocaoFindUniqueByPetId, hfc, hp, ha]
  cases hfind : db.adocoes.find? (fun a => decide (a.petId = body.petId)) with
  | none => rw [hfind] at hc; simp at hc
  | some a => simp

/-- C2: when the pet and the adopter exist and an adoption of that pet is
already stored (and the three lookups are answered), `createAdocao` responds
400 with body `{error: 'Este pet já foi adotado.'}` and the database state is
the initial one: no row is added or changed, no pet status changes. -/
theorem createAdocao_already_adopted (formatDate : Int → String) (fl : Faults) (now : Int)
    (db : Db) (body : AdocaoBody)
    (hfp : fl.fails .pet .findUnique = false) (hfa : fl.fails .adotante .findUnique = false)
    (hfc : fl.fails .adocao .findUnique = false)
    (hpet : ∃ p ∈ db.pets, p.id = body.petId)
    (hadot : ∃ a ∈ db.adotantes, a.id = body.adotanteId)
    (hadoc : ∃ a ∈ db.adocoes, a.petId = body.petId) :
    createAdocao formatDate fl now db body
      = (⟨400, Body.error "Este pet já foi adotado."⟩, db) :=
  createAdocao_pet_taken formatDate fl now db body hfp hfa hfc hpet hadot hadoc

theorem createAdocao_already_adopted_witness :
    createAdocao fmtSample Faults.none 2500 dbSample ⟨1, 6⟩
      = (⟨400, Body.error "Este pet já foi adotado."⟩, dbSample) :=
  createAdocao_already_adopted fmtSample Faults.none 2500 dbSample ⟨1, 6⟩ rfl rfl rfl
    (by decide) (by decide) (by decide)

/-! ## Successful creation -/

theorem nextAdocaoId_gt (rows : List AdocaoRow) : ∀ a ∈ rows, a.id < nextAdocaoId rows := by
  induction rows with
  | nil => intro a ha; cases ha
  | cons b bs ih =>
    intro a ha
    simp only [nextAdocaoId, List.foldr_cons] at ih ⊢
    rcases List.mem_cons.mp ha with h | h
    · subst h; omega
    · have := ih a h; omega

theorem nextAdocaoId_fresh (rows : List AdocaoRow) :
    nextAdocaoId rows ∉ rows.map AdocaoRow.id := by
  intro h
  rcases List.mem_map.mp h with ⟨a, ha, hid⟩
  have := nextAdocaoId_gt rows a ha
  omega

theorem adocao_find_petId_none (db : Db) (petId : Int)
    (h : ∀ a ∈ db.adocoes, a.petId ≠ petId) :
    db.adocoes.find? (fun a => decide (a.petId = petId)) = none := by
  simp only [List.find?_eq_none, decide_eq_true_eq]
  exact h

/-- What `createAdocao` returns once the existence checks and the uniqueness
lookup have passed and the insert is not rejected, in terms of the outcome of
the pet update. -/
theorem createAdocao_after_checks (formatDate : Int → String) (fl : Faults) (now : Int)
    (db : Db) (body : AdocaoBody)
    (hfp : fl.fails .pet .findUnique = false) (hfa : fl.fails .adotante .findUnique = false)
    (hfc : fl.fails .adocao .findUnique = false) (hfi : fl.fails .adocao .create = false)
    (hpet : ∃ p ∈ db.pets, p.id = body.petId)
    (hadot : ∃ a ∈ db.adotantes, a.id = body.adotanteId)
    (hfree : ∀ a ∈ db.adocoes, a.petId ≠ body.petId) :
    createAdocao formatDate fl now db body =
      if fl.fails .pet .update then
        (⟨500, Body.error "Erro ao criar a adoção."⟩,
          { db with adocoes := db.adocoes ++ [novaAdocaoRow now db body] })
      else
        (⟨201, Body.adocao (Adocao.ofRow (novaAdocaoRow now db body) (formatDate now))⟩,
          { db with adocoes := db.adocoes ++ [novaAdocaoRow now db body],
                    pets := petsAdotado db.pets body.petId }) := by
  have hp := (pet_find_isSome db body.petId).mpr hpet
  have ha := (adotante_find_isSome db body.adotanteId).mpr hadot
  have hc := adocao_find_petId_none db body.petId hfree
  simp only [createAdocao, entityExists_pet fl db _ hfp, entityExists_adotante fl db _ hfa,
    adocaoFindUniqueByPetId, adocaoCreate, petUpdateStatus, hfc, hfi, hp, ha, hc]
  cases hfu : fl.fails .pet .update
  · cases hfind : db.pets.find? (fun p => decide (p.id = body.petId)) with
    | none => rw [hfind] at hp; simp at hp
    | some p => simp [novaAdocaoRow, petsAdotado, hfind]
  · simp [novaAdocaoRow]

/-- C3: when the pet and the adopter exist, no adoption of the pet is stored
and no persistence call fails, `createAdocao` responds 201 with the inserted
row (a new identifier, the foreign keys of the request) whose `dataAdocao` is
`formatDate` of the stored timestamp; the resulting state has exactly that one
row appended to `adocao`, the adopters unchanged, and pet `petId` is present
with status `"1"`. -/
theorem createAdocao_success (formatDate : Int → String) (fl : Faults) (now : Int)
    (db : Db) (body : AdocaoBody)
    (hfl : ∀ t o, fl.fails t o = false)
    (hpet : ∃ p ∈ db.pets, p.id = body.petId)
    (hadot : ∃ a ∈ db.adotantes, a.id = body.adotanteId)
    (hfree : ∀ a ∈ db.adocoes, a.petId ≠ body.petId) :
    (createAdocao formatDate fl now db body).1 =
      ⟨201, Body.adocao
        { id := nextAdocaoId db.adocoes, adotanteId := body.adotanteId, petId := body.petId,
          dataAdocao := formatDate (novaAdocaoRow now db body).dataAdocao,
          adotante := none, pet := none }⟩ ∧
    (createAdocao formatDate fl now db body).2.adocoes
      = db.adocoes ++ [novaAdocaoRow now db body] ∧
    (novaAdocaoRow now db body).id ∉ db.adocoes.map AdocaoRow.id ∧
    (createAdocao formatDate fl now db body).2.adotantes = db.adotantes ∧
    (createAdocao formatDate fl now db body).2.pets = petsAdotado db.pets body.petId ∧
    (∃ p ∈ (createAdocao formatDate fl now db body).2.pets, p.id = body.petId) ∧
    (∀ p ∈ (createAdocao formatDate fl now db body).2.pets,
      p.id = body.petId → p.status = "1") := by
  rw [createAdocao_after_checks formatDate fl now db body (hfl _ _) (hfl _ _) (hfl _ _)
    (hfl _ _) hpet hadot hfree]
  rw [hfl .pet .update, if_neg Bool.false_ne_true]
  refine ⟨rfl, rfl, nextAdocaoId_fresh db.adocoes, rfl, rfl, ?_, ?_⟩
  · obtain ⟨p, hp, hid⟩ := hpet
    refine ⟨{ p with status := "1" }, ?_, hid⟩
    simp only [petsAdotado, List.mem_map]
    exact ⟨p, hp, by simp [hid]⟩
  · intro p hp hid
    simp only [petsAdotado, List.mem_map] at hp
    obtain ⟨q, _, hq⟩ := hp
    by_cases hqid : q.id = body.petId
    · rw [if_pos hqid] at hq; rw [← hq]
    · rw [if_neg hqid] at hq; rw [hq] at hqid; exact absurd hid hqid

theorem createAdocao_success_witness :
    (createAdocao fmtSample Faults.none 2500 dbSample ⟨1, 5⟩).1 =
      ⟨201, Body.adocao ⟨2, 1, 5, "depois", none, none⟩⟩ ∧
    (createAdocao fmtSample Faults.none 2500 dbSample ⟨1, 5⟩).2 =
      { pets := [⟨5, "Rex", "1"⟩, ⟨6, "Mia", "1"⟩],
        adotantes := [⟨1, "Ana"⟩, ⟨2, "Bia"⟩],
        adocoes := [⟨1, 2, 6, 1000⟩, ⟨2, 1, 5, 2500⟩] } ∧
    (∀ p ∈ (createAdocao fmtSample Faults.none 2500 dbSample ⟨1, 5⟩).2.pets,
      p.id = 5 → p.status = "1") :=
  ⟨(createAdocao_success fmtSample Faults.none 2500 dbSample ⟨1, 5⟩ (fun _ _ => rfl)
      (by decide) (by decide) (by decide)).1,
   by decide,
   (createAdocao_success fmtSample Faults.none 2500 dbSample ⟨1, 5⟩ (fun _ _ => rfl)
      (by decide) (by decide) (by decide)).2.2.2.2.2.2⟩

/-! ## Repeating a creation -/

/-- A response 201 of `createAdocao` is reached only through every check and
both writes. -/
theorem createAdocao_created_inv (formatDate : Int → String) (fl : Faults) (now : Int)
    (db : Db) (body : AdocaoBody)
    (h201 : (createAdocao formatDate fl now db body).1.status = 201) :
    (∃ p ∈ db.pets, p.id = body.petId) ∧ (∃ a ∈ db.adotantes, a.id = body.adotanteId) ∧
    (createAdocao formatDate fl now db body).2 =
      { db with adocoes := db.adocoes ++ [novaAdocaoRow now db body],
                pets := petsAdotado db.pets body.petId } := by
  cases hfp : fl.fails .pet .findUnique
  swap
  · simp [createAdocao, entityExists, petFindUnique, hfp] at h201
  cases hfa : fl.fails .adotante .findUnique
  swap
  · simp [createAdocao, entityExists, petFindUnique, adotanteFindUnique, hfp, hfa] at h201
  by_cases hpet : ∃ p ∈ db.pets, p.id = body.petId
  swap
  · have := (createAdocao_missing_key formatDate fl now db body hfp hfa (Or.inl hpet)).1
    omega
  by_cases hadot : ∃ a ∈ db.adotantes, a.id = body.adotanteId
  swap
  · have := (createAdocao_missing_key formatDate fl now db body hfp hfa (Or.inr hadot)).1
    omega
  refine ⟨hpet, hadot, ?_⟩
  have hp := (pet_find_isSome db body.petId).mpr hpet
  have ha := (adotante_find_isSome db body.adotanteId).mpr hadot
  cases hfc : fl.fails .adocao .findUnique
  swap
  · simp [createAdocao, entityExists_pet fl db _ hfp, entityExists_adotante fl db _ hfa,
      adocaoFindUniqueByPetId, hfc, hp, ha] at h201
  by_cases hadoc : ∃ a ∈ db.adocoes, a.petId = body.petId
  · rw [createAdocao_pet_taken formatDate fl now db body hfp hfa hfc hpet hadot hadoc]
      at h201
    simp at h201
  have hfree : ∀ a ∈ db.adocoes, a.petId ≠ body.petId := by
    intro a ha2 heq; exact hadoc ⟨a, ha2, heq⟩
  have hc := adocao_find_petId_none db body.petId hfree
  cases hfi : fl.fails .adocao .create
  swap
  · simp [createAdocao, entityExists_pet fl db _ hfp, entityExists_adotante fl db _ hfa,
      adocaoFindUniqueByPetId, adocaoCreate, hfc, hfi, hp, ha, hc] at h201
  have hrw := createAdocao_after_checks formatDate fl now db body hfp hfa hfc hfi hpet hadot hfree
  cases hfu : fl.fails .pet .update
  · rw [hrw]; simp [hfu]
  · rw [hrw] at h201; simp [hfu] at h201

theorem petsAdotado_exists (pets : List Pet) (petId id : Int)
    (h : ∃ p ∈ pets, p.id = id) : ∃ p ∈ petsAdotado pets petId, p.id = id := by
  obtain ⟨p, hp, hid⟩ := h
  by_cases hq : p.id = petId
  · refine ⟨{ p with status := "1" }, ?_, hid⟩
    simp only [petsAdotado, List.mem_map]
    exact ⟨p, hp, by simp [hq]⟩
  · refine ⟨p, ?_, hid⟩
    simp only [petsAdotado, List.mem_map]
    exact ⟨p, hp, by simp [hq]⟩

/-- C5: after a `createAdocao` that responded 201, the same request on the
resulting state (its three lookups answered) is rejected with 400 and the
message of the source, and leaves that state unchanged. -/
theorem createAdocao_repeat_rejected (formatDate : Int → String) (fl1 fl2 : Faults)
    (now1 now2 : Int) (db : Db) (body : AdocaoBody)
    (h201 : (createAdocao formatDate fl1 now1 db body).1.status = 201)
    (hfp : fl2.fails .pet .findUnique = false) (hfa : fl2.fails .adotante .findUnique = false)
    (hfc : fl2.fails .adocao .findUnique = false) :
    createAdocao formatDate fl2 now2 (createAdocao formatDate fl1 now1 db body).2 body
      = (⟨400, Body.error "Este pet já foi adotado."⟩,
         (createAdocao formatDate fl1 now1 db body).2) := by
  obtain ⟨hpet, hadot, hst⟩ := createAdocao_created_inv formatDate fl1 now1 db body h201
  apply createAdocao_pet_taken formatDate fl2 now2 _ body hfp hfa hfc
  · rw [hst]; exact petsAdotado_exists db.pets body.petId body.petId hpet
  · rw [hst]; exact hadot
  · rw [hst]
    exact ⟨novaAdocaoRow now1 db body, by simp, rfl⟩

theorem createAdocao_repeat_rejected_witness :
    (createAdocao fmtSample Faults.none 2500 dbScenario ⟨1, 5⟩).1
      = ⟨201, Body.adocao ⟨1, 1, 5, "depois", none, none⟩⟩ ∧
    (createAdocao fmtSample Faults.none 2500 dbScenario ⟨1, 5⟩).2.pets = [⟨5, "Rex", "1"⟩] ∧
    createAdocao fmtSample Faults.none 2600
        (createAdocao fmtSample Faults.none 2500 dbScenario ⟨1, 5⟩).2 ⟨1, 5⟩
      = (⟨400, Body.error "Este pet já foi adotado."⟩,
         (createAdocao fmtSample Faults.none 2500 dbScenario ⟨1, 5⟩).2) :=
  ⟨by decide, by decide,
   createAdocao_repeat_rejected fmtSample Faults.none Faults.none 2500 2600 dbScenario ⟨1, 5⟩
     (by decide) rfl rfl rfl⟩

/-! ## Partial failure of a creation -/

/-- C9: `createAdocao` is not atomic.  Whenever every check passes and the
insert succeeds but the update of the pet fails, the response is 500 with the
message of the source, the new row is in the resulting state (the `adocao`
table is the initial one with that row appended) and the pet table is the
initial one: the status of the pet has not been set. -/
theorem createAdocao_not_atomic (formatDate : Int → String) (fl : Faults) (now : Int)
    (db : Db) (body : AdocaoBody)
    (hfp : fl.fails .pet .findUnique = false) (hfa : fl.fails .adotante .findUnique = false)
    (hfc : fl.fails .adocao .findUnique = false) (hfi : fl.fails .adocao .create = false)
    (hfu : fl.fails .pet .update = true)
    (hpet : ∃ p ∈ db.pets, p.id = body.petId)
    (hadot : ∃ a ∈ db.adotantes, a.id = body.adotanteId)
    (hfree : ∀ a ∈ db.adocoes, a.petId ≠ body.petId) :
    (createAdocao formatDate fl now db body).1 = ⟨500, Body.error "Erro ao criar a adoção."⟩ ∧
    (createAdocao formatDate fl now db body).2.adocoes
      = db.adocoes ++ [novaAdocaoRow now db body] ∧
    novaAdocaoRow now db body ∉ db.adocoes ∧
    (createAdocao formatDate fl now db body).2.pets = db.pets ∧
    (createAdocao formatDate fl now db body).2.adotantes = db.adotantes := by
  rw [createAdocao_after_checks formatDate fl now db body hfp hfa hfc hfi hpet hadot hfree,
    hfu, if_pos rfl]
  refine ⟨rfl, rfl, ?_, rfl, rfl⟩
  intro hmem
  exact hfree _ hmem rfl

theorem createAdocao_not_atomic_witness :
    (createAdocao fmtSample (Faults.only .pet .update) 2500 dbScenario ⟨1, 5⟩).1
      = ⟨500, Body.error "Erro ao criar a adoção."⟩ ∧
    (createAdocao fmtSample (Faults.only .pet .update) 2500 dbScenario ⟨1, 5⟩).2
      = { pets := [⟨5, "Rex", "0"⟩], adotantes := [⟨1, "Ana"⟩],
          adocoes := [⟨1, 1, 5, 2500⟩] } :=
  ⟨(createAdocao_not_atomic fmtSample (Faults.only .pet .update) 2500 dbScenario ⟨1, 5⟩
      rfl rfl rfl rfl rfl (by decide) (by decide) (by decide)).1,
   by decide⟩

/-! ## Deletion -/

theorem adocao_find_id_isSome (db : Db) (id : Int) :
    (db.adocoes.find? (fun a => decide (a.id = id))).isSome = true
      ↔ ∃ a ∈ db.adocoes, a.id = id := by
  simp [List.find?_isSome]

theorem adocao_find_id_none (db : Db) (id : Int) (h : ∀ a ∈ db.adocoes, a.id ≠ id) :
    db.adocoes.find? (fun a => decide (a.id = id)) = none := by
  simp only [List.find?_eq_none, decide_eq_true_eq]
  exact h

/-- C6: for a route parameter that identifies no stored adoption,
`deleteAdocao` responds 500 with the message of the source and the database
state is unchanged: the delete of a missing record raises inside the `try`,
there is no existence check and no 404. -/
theorem deleteAdocao_missing (fl : Faults) (db : Db) (id : String)
    (hmiss : ∀ n, parseInt id = some n → ∀ a ∈ db.adocoes, a.id ≠ n) :
    deleteAdocao fl db id = (⟨500, Body.error "Erro ao excluir a adoção."⟩, db) := by
  unfold deleteAdocao
  cases hparse : parseInt id with
  | none => rfl
  | some n =>
    simp only [validateInt, adocaoDelete, adocao_find_id_none db n (hmiss n hparse)]
    cases fl.fails .adocao .delete <;> rfl

theorem deleteAdocao_missing_witness :
    deleteAdocao Faults.none dbSample "7"
      = (⟨500, Body.error "Erro ao excluir a adoção."⟩, dbSample) :=
  deleteAdocao_missing Faults.none dbSample "7" (by decide)

/-- C7: for a route parameter that identifies a stored adoption (and a delete
that the persistence layer answers), `deleteAdocao` responds 204 with an empty
body; the resulting `adocao` table is the initial one without the rows of that
identifier, and the pet and adopter tables are the initial ones, so the status
of the pet of the deleted adoption is not reverted. -/
theorem deleteAdocao_existing (fl : Faults) (db : Db) (id : String) (n : Int)
    (hfd : fl.fails .adocao .delete = false)
    (hparse : parseInt id = some n)
    (hex : ∃ a ∈ db.adocoes, a.id = n) :
    (deleteAdocao fl db id).1 = ⟨204, Body.empty⟩ ∧
    (deleteAdocao fl db id).2.adocoes = db.adocoes.filter (fun b => !decide (b.id = n)) ∧
    (∀ a ∈ (deleteAdocao fl db id).2.adocoes, a.id ≠ n) ∧
    (∀ a ∈ db.adocoes, a.id ≠ n → a ∈ (deleteAdocao fl db id).2.adocoes) ∧
    (deleteAdocao fl db id).2.pets = db.pets ∧
    (deleteAdocao fl db id).2.adotantes = db.adotantes := by
  have hs := (adocao_find_id_isSome db n).mpr hex
  unfold deleteAdocao
  simp only [hparse, validateInt, adocaoDelete, hfd]
  cases hfind : db.adocoes.find? (fun a => decide (a.id = n)) with
  | none => rw [hfind] at hs; simp at hs
  | some a =>
    refine ⟨rfl, rfl, ?_, ?_, rfl, rfl⟩
    · intro b hb
      simp only [Bool.false_eq_true, if_false, List.mem_filter] at hb
      simpa using hb.2
    · intro b hb hne
      simp only [Bool.false_eq_true, if_false, List.mem_filter]
      exact ⟨hb, by simpa using hne⟩

theorem deleteAdocao_existing_witness :
    (deleteAdocao Faults.none dbTwo "2").1 = ⟨204, Body.empty⟩ ∧
    (deleteAdocao Faults.none dbTwo "2").2 =
      { pets := [⟨5, "Rex", "1"⟩, ⟨6, "Mia", "1"⟩],
        adotantes := [⟨1, "Ana"⟩, ⟨2, "Bia"⟩],
        adocoes := [⟨1, 2, 6, 1000⟩] } :=
  ⟨(deleteAdocao_existing Faults.none dbTwo "2" 2 rfl (by decide) (by decide)).1, by decide⟩

/-! ## Adoptions of one adopter -/

/-- C10: when no persistence call fails (the route parameter parses to a
number, so that the client accepts the query, and the query is answered),
`getAdocoesByAdotanteId` responds 200 with one element per stored adoption
whose `adotanteId` is that number, in table order, each joined with its pet
and adopter and with `dataAdocao` formatted; the database state is unchanged;
and when no adoption has that `adotanteId` (in particular when no such adopter
exists) the response is 200 with the empty sequence. -/
theorem getAdocoesByAdotanteId_ok (formatDate : Int → String) (fl : Faults) (db : Db)
    (adotanteId : String) (n : Int)
    (hparse : parseInt adotanteId = some n)
    (hfm : fl.fails .adocao .findMany = false) :
    getAdocoesByAdotanteId formatDate fl db adotanteId =
      (⟨200, Body.adocoes
        ((db.adocoes.filter (fun a => decide (a.adotanteId = n))).map
          (fun a => Adocao.ofJoined (joinAdocao db a) (formatDate a.dataAdocao)))⟩, db) ∧
    ((∀ a ∈ db.adocoes, a.adotanteId ≠ n) →
      getAdocoesByAdotanteId formatDate fl db adotanteId = (⟨200, Body.adocoes []⟩, db)) := by
  have heq : getAdocoesByAdotanteId formatDate fl db adotanteId =
      (⟨200, Body.adocoes
        ((db.adocoes.filter (fun a => decide (a.adotanteId = n))).map
          (fun a => Adocao.ofJoined (joinAdocao db a) (formatDate a.dataAdocao)))⟩, db) := by
    simp [getAdocoesByAdotanteId, hparse, validateInt, adocaoFindManyByAdotanteId, hfm, newDate,
      joinAdocao, List.map_map, Function.comp_def]
  refine ⟨heq, ?_⟩
  intro hnone
  have hfil : db.adocoes.filter (fun a => decide (a.adotanteId = n)) = [] := by
    simp only [List.filter_eq_nil_iff, decide_eq_true_eq]
    exact hnone
  rw [heq, hfil]
  rfl

theorem getAdocoesByAdotanteId_ok_witness :
    getAdocoesByAdotanteId fmtSample Faults.none dbTwo "1" =
      (⟨200, Body.adocoes
        [⟨2, 1, 5, "depois", some ⟨1, "Ana"⟩, some ⟨5, "Rex", "1"⟩⟩]⟩, dbTwo) ∧
    getAdocoesByAdotanteId fmtSample Faults.none dbTwo "9" = (⟨200, Body.adocoes []⟩, dbTwo) :=
  ⟨by decide,
   (getAdocoesByAdotanteId_ok fmtSample Faults.none dbTwo "9" 9 (by decide) rfl).2
     (by decide)⟩

/-! ## Update -/

/-- Rows that hold `petId` after the overwrite are the rows that had the
identifier `n` or already held `petId`. -/
theorem countP_adocoesAtualizadas (adocoes : List AdocaoRow) (n adotanteId petId : Int) :
    (adocoesAtualizadas adocoes n adotanteId petId).countP (fun b => decide (b.petId = petId))
      = adocoes.countP (fun b => decide (b.id = n) || decide (b.petId = petId)) := by
  unfold adocoesAtualizadas
  rw [List.countP_map]
  apply List.countP_congr
  intro x _
  by_cases hx : x.id = n <;> simp [hx]

/-- Two disjoint predicates below a third one count at most what it counts. -/
theorem countP_add_le (l : List AdocaoRow) (p q r : AdocaoRow → Bool)
    (hp : ∀ x, p x = true → r x = true) (hq : ∀ x, q x = true → r x = true)
    (hpq : ∀ x, p x = true → q x = true → False) :
    l.countP p + l.countP q ≤ l.countP r := by
  induction l with
  | nil => simp
  | cons x xs ih =>
    simp only [List.countP_cons]
    cases hpx : p x <;> cases hqx : q x <;> cases hrx : r x
    all_goals first
      | (simp; omega)
      | (exfalso; exact hpq x hpx hqx)
      | (exfalso; have := hp x hpx; simp [hrx] at this)
      | (exfalso; have := hq x hqx; simp [hrx] at this)

/-- What `updateAdocao` returns once the two existence checks have passed and
the route parameter is a number, in terms of the outcome of the update. -/
theorem updateAdocao_after_checks (formatDate : Int → String) (fl : Faults) (db : Db)
    (id : String) (body : AdocaoBody) (n : Int)
    (hfp : fl.fails .pet .findUnique = false) (hfa : fl.fails .adotante .findUnique = false)
    (hpet : ∃ p ∈ db.pets, p.id = body.petId)
    (hadot : ∃ x ∈ db.adotantes, x.id = body.adotanteId)
    (hparse : parseInt id = some n) :
    updateAdocao formatDate fl db id body =
      match adocaoUpdate fl db n body.adotanteId body.petId with
      | .error _ => (⟨500, Body.error "Erro ao atualizar a adoção."⟩, db)
      | .ok (row, db1) =>
        (⟨200, Body.adocao (Adocao.ofRow row (formatDate (newDate row.dataAdocao)))⟩, db1) := by
  have hp := (pet_find_isSome db body.petId).mpr hpet
  have ha := (adotante_find_isSome db body.adotanteId).mpr hadot
  simp only [updateAdocao, entityExists_pet fl db _ hfp, entityExists_adotante fl db _ hfa,
    hp, ha, hparse, validateInt]
  rfl

/-- The update of the persistence client written with `adocoesAtualizadas`. -/
theorem adocaoUpdate_eq (fl : Faults) (db : Db) (n adotanteId petId : Int) :
    adocaoUpdate fl db n adotanteId petId =
      if fl.fails .adocao .update then .error .unavailable
      else
        match db.adocoes.find? (fun a => decide (a.id = n)) with
        | none => .error .recordNotFound
        | some a =>
          if 1 < (adocoesAtualizadas db.adocoes n adotanteId petId).countP
              (fun b => decide (b.petId = petId)) then .error .uniqueConstraint
          else
            .ok ({ a with adotanteId := adotanteId, petId := petId },
              { db with adocoes := adocoesAtualizadas db.adocoes n adotanteId petId }) := rfl

/-- An update that another row blocks: the unique key on `petId` rejects it. -/
theorem adocaoUpdate_taken (fl : Faults) (db : Db) (n adotanteId petId : Int)
    (htaken : ∃ b ∈ db.adocoes, b.petId = petId ∧ b.id ≠ n) :
    ∃ e, adocaoUpdate fl db n adotanteId petId = .error e := by
  rw [adocaoUpdate_eq]
  cases fl.fails .adocao .update
  swap
  · exact ⟨_, rfl⟩
  cases hfind : db.adocoes.find? (fun a => decide (a.id = n)) with
  | none => exact ⟨_, rfl⟩
  | some a =>
    have hmem := List.mem_of_find?_eq_some hfind
    have hid : a.id = n := by simpa using List.find?_some hfind
    obtain ⟨b, hb, hbp, hbn⟩ := htaken
    have h1 : 0 < db.adocoes.countP (fun x => decide (x.id = n)) :=
      List.countP_pos_iff.mpr ⟨a, hmem, by simp [hid]⟩
    have h2 : 0 < db.adocoes.countP
        (fun x => !decide (x.id = n) && decide (x.petId = petId)) :=
      List.countP_pos_iff.mpr ⟨b, hb, by simp [hbp, hbn]⟩
    have h3 := countP_add_le db.adocoes (fun x => decide (x.id = n))
      (fun x => !decide (x.id = n) && decide (x.petId = petId))
      (fun x => decide (x.id = n) || decide (x.petId = petId))
      (by intro x hx; simp at hx; simp [hx])
      (by intro x hx; simp at hx; simp [hx.2])
      (by intro x hx hy; simp at hx hy; exact hy.1 hx)
    have hgt : 1 < (adocoesAtualizadas db.adocoes n adotanteId petId).countP
        (fun b => decide (b.petId = petId)) := by
      rw [countP_adocoesAtualizadas]; omega
    simp only [Bool.false_eq_true, if_false, hgt, if_true]
    exact ⟨_, rfl⟩

/-- C8, as amended: with the two existence lookups answered, `updateAdocao`
(a) for a route parameter identifying exactly one stored adoption, foreign keys
that both identify stored rows and a pet that no other adoption holds, responds
200 and overwrites the foreign keys of that row with the requested ones, the
pet and adopter tables staying as they were (no status is reverted or set);
(b) when another adoption holds the pet, responds 500 with the message of the
source and leaves the state unchanged: the controller makes no check of its
own, the unique key on `petId` rejects the write; (c) responds 404 and leaves
the state unchanged when the pet or the adopter does not exist. -/
theorem updateAdocao_overwrites (formatDate : Int → String) (fl : Faults) (db : Db)
    (id : String) (body : AdocaoBody)
    (hfp : fl.fails .pet .findUnique = false) (hfa : fl.fails .adotante .findUnique = false) :
    (∀ n, fl.fails .adocao .update = false → parseInt id = some n →
      db.adocoes.countP (fun a => decide (a.id = n)) = 1 →
      (∃ p ∈ db.pets, p.id = body.petId) →
      (∃ x ∈ db.adotantes, x.id = body.adotanteId) →
      (∀ b ∈ db.adocoes, b.petId = body.petId → b.id = n) →
      (updateAdocao formatDate fl db id body).1.status = 200 ∧
      (∃ a ∈ db.adocoes, a.id = n ∧ (updateAdocao formatDate fl db id body).1.body =
        Body.adocao ⟨n, body.adotanteId, body.petId, formatDate a.dataAdocao, none, none⟩) ∧
      (updateAdocao formatDate fl db id body).2.adocoes
        = adocoesAtualizadas db.adocoes n body.adotanteId body.petId ∧
      (∀ b ∈ (updateAdocao formatDate fl db id body).2.adocoes,
        b.id = n → b.adotanteId = body.adotanteId ∧ b.petId = body.petId) ∧
      (updateAdocao formatDate fl db id body).2.pets = db.pets ∧
      (updateAdocao formatDate fl db id body).2.adotantes = db.adotantes) ∧
    (∀ n, parseInt id = some n →
      (∃ p ∈ db.pets, p.id = body.petId) →
      (∃ x ∈ db.adotantes, x.id = body.adotanteId) →
      (∃ b ∈ db.adocoes, b.petId = body.petId ∧ b.id ≠ n) →
      updateAdocao formatDate fl db id body
        = (⟨500, Body.error "Erro ao atualizar a adoção."⟩, db)) ∧
    (((¬ ∃ p ∈ db.pets, p.id = body.petId) ∨ (¬ ∃ x ∈ db.adotantes, x.id = body.adotanteId)) →
      (updateAdocao formatDate fl db id body).1.status = 404 ∧
      (∃ msg, (updateAdocao formatDate fl db id body).1.body = Body.error msg) ∧
      (updateAdocao formatDate fl db id body).2 = db) := by
  refine ⟨?_, ?_, ?_⟩
  · intro n hfu hparse hone hpet hadot hfree
    have hex : ∃ a ∈ db.adocoes, a.id = n := by
      have hpos : 0 < db.adocoes.countP (fun a => decide (a.id = n)) := by omega
      obtain ⟨a, ha, hid⟩ := List.countP_pos_iff.mp hpos
      exact ⟨a, ha, by simpa using hid⟩
    have hs := (adocao_find_id_isSome db n).mpr hex
    have hcount : (adocoesAtualizadas db.adocoes n body.adotanteId body.petId).countP
        (fun b => decide (b.petId = body.petId)) = 1 := by
      rw [countP_adocoesAtualizadas, ← hone]
      apply List.countP_congr
      intro x hx
      constructor
      · intro h
        simp only [Bool.or_eq_true, decide_eq_true_eq] at h
        rcases h with h | h
        · simp [h]
        · simp [hfree x hx h]
      · intro h
        simp only [decide_eq_true_eq] at h
        simp [h]
    rw [updateAdocao_after_checks formatDate fl db id body n hfp hfa hpet hadot hparse,
      adocaoUpdate_eq, hfu, if_neg Bool.false_ne_true]
    cases hfind : db.adocoes.find? (fun a => decide (a.id = n)) with
    | none => rw [hfind] at hs; simp at hs
    | some a =>
      have hmem := List.mem_of_find?_eq_some hfind
      have hid : a.id = n := by simpa using List.find?_some hfind
      simp only [hcount, lt_irrefl, if_false]
      refine ⟨?_, ⟨a, hmem, hid, ?_⟩, ?_, ?_, ?_, ?_⟩
      · first | rfl | trivial
      · simp [Adocao.ofRow, newDate, hid]
      · first | rfl | trivial
      · intro b hb hbid
        simp only [adocoesAtualizadas, List.mem_map] at hb
        obtain ⟨c, _, hc⟩ := hb
        by_cases hcid : c.id = n
        · rw [if_pos hcid] at hc; rw [← hc]; exact ⟨rfl, rfl⟩
        · rw [if_neg hcid] at hc; rw [hc] at hcid; exact absurd hbid hcid
      · first | rfl | trivial
      · first | rfl | trivial
  · intro n hparse hpet hadot htaken
    rw [updateAdocao_after_checks formatDate fl db id body n hfp hfa hpet hadot hparse]
    obtain ⟨e, he⟩ := adocaoUpdate_taken fl db n body.adotanteId body.petId htaken
    rw [he]
  · intro hmiss
    have hp := pet_find_isSome db body.petId
    have ha := adotante_find_isSome db body.adotanteId
    simp only [updateAdocao, entityExists_pet fl db _ hfp, entityExists_adotante fl db _ hfa]
    cases hpe : (db.pets.find? (fun p => decide (p.id = body.petId))).isSome
    · simp
    · cases hae : (db.adotantes.find? (fun a => decide (a.id = body.adotanteId))).isSome
      · simp
      · rw [hpe] at hp; rw [hae] at ha
        rcases hmiss with h | h
        · exact absurd (hp.mp rfl) h
        · exact absurd (ha.mp rfl) h

theorem updateAdocao_overwrites_witness :
    ((updateAdocao fmtSample Faults.none dbThree "2" ⟨2, 7⟩).1
        = ⟨200, Body.adocao ⟨2, 2, 7, "depois", none, none⟩⟩ ∧
     (updateAdocao fmtSample Faults.none dbThree "2" ⟨2, 7⟩).2 =
       { pets := [⟨5, "Rex", "1"⟩, ⟨6, "Mia", "1"⟩, ⟨7, "Tom", "0"⟩],
         adotantes := [⟨1, "Ana"⟩, ⟨2, "Bia"⟩],
         adocoes := [⟨1, 2, 6, 1000⟩, ⟨2, 2, 7, 2500⟩] } ∧
     (updateAdocao fmtSample Faults.none dbThree "2" ⟨2, 7⟩).2.pets = dbThree.pets) ∧
    updateAdocao fmtSample Faults.none dbThree "2" ⟨1, 6⟩
      = (⟨500, Body.error "Erro ao atualizar a adoção."⟩, dbThree) ∧
    ((updateAdocao fmtSample Faults.none dbThree "2" ⟨3, 5⟩).1.status = 404 ∧
     (updateAdocao fmtSample Faults.none dbThree "2" ⟨3, 5⟩).2 = dbThree) :=
  ⟨⟨by decide, by decide,
    ((updateAdocao_overwrites fmtSample Faults.none dbThree "2" ⟨2, 7⟩ rfl rfl).1 2 rfl
        (by decide) (by decide) (by decide) (by decide) (by decide)).2.2.2.2.1⟩,
   (updateAdocao_overwrites fmtSample Faults.none dbThree "2" ⟨1, 6⟩ rfl rfl).2.1 2
      (by decide) (by decide) (by decide) (by decide),
   ⟨((updateAdocao_overwrites fmtSample Faults.none dbThree "2" ⟨3, 5⟩ rfl rfl).2.2
        (Or.inr (by decide))).1,
    ((updateAdocao_overwrites fmtSample Faults.none dbThree "2" ⟨3, 5⟩ rfl rfl).2.2
        (Or.inr (by decide))).2.2⟩⟩

/-- C8 as stated fails: adoption 1 exists, pet 5 and adopter 2 exist, yet the
update of adoption 1 to pet 5, which adoption 2 holds, is answered with 500 and
writes nothing, where the claim has 200 and the overwrite. -/
theorem updateAdocao_taken_counterexample :
    parseInt "1" = some 1 ∧
    (∃ a ∈ dbTwo.adocoes, a.id = 1) ∧
    (∃ p ∈ dbTwo.pets, p.id = 5) ∧
    (∃ x ∈ dbTwo.adotantes, x.id = 2) ∧
    (updateAdocao fmtSample Faults.none dbTwo "1" ⟨2, 5⟩).1.status ≠ 200 ∧
    updateAdocao fmtSample Faults.none dbTwo "1" ⟨2, 5⟩
      = (⟨500, Body.error "Erro ao atualizar a adoção."⟩, dbTwo) := by
  refine ⟨by decide, by decide, by decide, by decide, by decide, by decide⟩

/-! ## One adoption per pet -/

/-- The `adocao` table after `createAdocao` is the initial one, or the initial
one with the new row appended, and then no stored adoption had its `petId`. -/
theorem createAdocao_adocoes_cases (formatDate : Int → String) (fl : Faults) (now : Int)
    (db : Db) (body : AdocaoBody) :
    (createAdocao formatDate fl now db body).2.adocoes = db.adocoes ∨
    ((∀ a ∈ db.adocoes, a.petId ≠ body.petId) ∧
      (createAdocao formatDate fl now db body).2.adocoes
        = db.adocoes ++ [novaAdocaoRow now db body]) := by
  cases hfp : fl.fails .pet .findUnique
  swap
  · left; simp [createAdocao, entityExists, petFindUnique, hfp]
  cases hfa : fl.fails .adotante .findUnique
  swap
  · left; simp [createAdocao, entityExists, petFindUnique, adotanteFindUnique, hfp, hfa]
  by_cases hpet : ∃ p ∈ db.pets, p.id = body.petId
  swap
  · left; rw [(createAdocao_missing_key formatDate fl now db body hfp hfa (Or.inl hpet)).2.2]
  by_cases hadot : ∃ a ∈ db.adotantes, a.id = body.adotanteId
  swap
  · left; rw [(createAdocao_missing_key formatDate fl now db body hfp hfa (Or.inr hadot)).2.2]
  have hp := (pet_find_isSome db body.petId).mpr hpet
  have ha := (adotante_find_isSome db body.adotanteId).mpr hadot
  cases hfc : fl.fails .adocao .findUnique
  swap
  · left
    simp [createAdocao, entityExists_pet fl db _ hfp, entityExists_adotante fl db _ hfa,
      adocaoFindUniqueByPetId, hfc, hp, ha]
  by_cases hadoc : ∃ a ∈ db.adocoes, a.petId = body.petId
  · left
    rw [createAdocao_pet_taken formatDate fl now db body hfp hfa hfc hpet hadot hadoc]
  have hfree : ∀ a ∈ db.adocoes, a.petId ≠ body.petId := by
    intro a ha2 heq; exact hadoc ⟨a, ha2, heq⟩
  have hc := adocao_find_petId_none db body.petId hfree
  cases hfi : fl.fails .adocao .create
  swap
  · left
    simp [createAdocao, entityExists_pet fl db _ hfp, entityExists_adotante fl db _ hfa,
      adocaoFindUniqueByPetId, adocaoCreate, hfc, hfi, hp, ha, hc]
  right
  refine ⟨hfree, ?_⟩
  rw [createAdocao_after_checks formatDate fl now db body hfp hfa hfc hfi hpet hadot hfree]
  cases fl.fails .pet .update <;> simp

/-- Whatever the persistence layer does, `createAdocao` keeps the invariant. -/
theorem createAdocao_preserves_oneAdocaoPerPet (formatDate : Int → String) (fl : Faults)
    (now : Int) (db : Db) (body : AdocaoBody) (hinv : OneAdocaoPerPet db) :
    OneAdocaoPerPet (createAdocao formatDate fl now db body).2 := by
  unfold OneAdocaoPerPet at hinv ⊢
  rcases createAdocao_adocoes_cases formatDate fl now db body with h | ⟨hfree, h⟩
  · rw [h]; exact hinv
  · rw [h, List.map_append, List.nodup_append]
    refine ⟨hinv, by simp, ?_⟩
    intro x hx hy
    simp only [List.map_cons, List.map_nil, List.mem_singleton] at hy
    rcases List.mem_map.mp hx with ⟨a, ha, hax⟩
    exact hfree a ha (by rw [hax, hy]; rfl)

/-- Whatever the persistence layer does, `deleteAdocao` keeps the invariant. -/
theorem deleteAdocao_preserves_oneAdocaoPerPet (fl : Faults) (db : Db) (id : String)
    (hinv : OneAdocaoPerPet db) : OneAdocaoPerPet (deleteAdocao fl db id).2 := by
  unfold OneAdocaoPerPet at hinv ⊢
  have hsub : ((deleteAdocao fl db id).2.adocoes).Sublist db.adocoes := by
    unfold deleteAdocao
    cases parseInt id with
    | none => exact List.Sublist.refl _
    | some n =>
      simp only [validateInt, adocaoDelete]
      cases fl.fails .adocao .delete
      · cases db.adocoes.find? (fun a => decide (a.id = n)) with
        | none => exact List.Sublist.refl _
        | some a => exact List.filter_sublist _
      · exact List.Sublist.refl _
  exact List.Nodup.sublist (hsub.map AdocaoRow.petId) hinv

/-- The `adocao` table after `updateAdocao` is the initial one, or the
overwritten one, and then at most one of its rows holds the written `petId`. -/
theorem updateAdocao_adocoes_cases (formatDate : Int → String) (fl : Faults) (db : Db)
    (id : String) (body : AdocaoBody) :
    (updateAdocao formatDate fl db id body).2.adocoes = db.adocoes ∨
    ∃ n, (updateAdocao formatDate fl db id body).2.adocoes
        = adocoesAtualizadas db.adocoes n body.adotanteId body.petId ∧
      (adocoesAtualizadas db.adocoes n body.adotanteId body.petId).countP
        (fun b => decide (b.petId = body.petId)) ≤ 1 := by
  cases hfp : fl.fails .pet .findUnique
  swap
  · left; simp [updateAdocao, entityExists, petFindUnique, hfp]
  cases hfa : fl.fails .adotante .findUnique
  swap
  · left; simp [updateAdocao, entityExists, petFindUnique, adotanteFindUnique, hfp, hfa]
  have hp := pet_find_isSome db body.petId
  have ha := adotante_find_isSome db body.adotanteId
  by_cases hpet : ∃ p ∈ db.pets, p.id = body.petId
  swap
  · left
    have hpe : (db.pets.find? (fun p => decide (p.id = body.petId))).isSome = false := by
      cases h : (db.pets.find? (fun p => decide (p.id = body.petId))).isSome
      · rfl
      · exact absurd (hp.mp h) hpet
    simp [updateAdocao, entityExists_pet fl db _ hfp, entityExists_adotante fl db _ hfa, hpe]
  by_cases hadot : ∃ x ∈ db.adotantes, x.id = body.adotanteId
  swap
  · left
    have hae : (db.adotantes.find? (fun a => decide (a.id = body.adotanteId))).isSome
        = false := by
      cases h : (db.adotantes.find? (fun a => decide (a.id = body.adotanteId))).isSome
      · rfl
      · exact absurd (ha.mp h) hadot
    simp [updateAdocao, entityExists_pet fl db _ hfp, entityExists_adotante fl db _ hfa,
      hp.mpr hpet, hae]
  cases hparse : parseInt id with
  | none =>
    left
    simp [updateAdocao, entityExists_pet fl db _ hfp, entityExists_adotante fl db _ hfa,
      hp.mpr hpet, ha.mpr hadot, hparse, validateInt]
  | some n =>
    rw [updateAdocao_after_checks formatDate fl db id body n hfp hfa hpet hadot hparse,
      adocaoUpdate_eq]
    cases fl.fails .adocao .update
    swap
    · left; rfl
    cases db.adocoes.find? (fun a => decide (a.id = n)) with
    | none => left; rfl
    | some a =>
      by_cases hgt : 1 < (adocoesAtualizadas db.adocoes n body.adotanteId body.petId).countP
          (fun b => decide (b.petId = body.petId))
      · left; simp [hgt]
      · right
        refine ⟨n, ?_, by omega⟩
        simp [hgt]

/-- Overwriting keeps the pets of the table distinct when at most one row
holds the written pet afterwards. -/
theorem nodup_petId_adocoesAtualizadas (adocoes : List AdocaoRow) (n adotanteId petId : Int)
    (hinv : (adocoes.map AdocaoRow.petId).Nodup)
    (hcount : (adocoesAtualizadas adocoes n adotanteId petId).countP
      (fun b => decide (b.petId = petId)) ≤ 1) :
    ((adocoesAtualizadas adocoes n adotanteId petId).map AdocaoRow.petId).Nodup := by
  rw [List.nodup_iff_count_le_one] at hinv ⊢
  intro k
  by_cases hk : k = petId
  · subst hk
    rw [List.count_eq_countP, List.countP_map]
    calc List.countP ((fun x => x == k) ∘ AdocaoRow.petId) (adocoesAtualizadas adocoes n adotanteId k)
        = (adocoesAtualizadas adocoes n adotanteId k).countP (fun b => decide (b.petId = k)) := by
          apply List.countP_congr; intro x _; simp
      _ ≤ 1 := hcount
  · have hold := hinv k
    rw [List.count_eq_countP, List.countP_map] at hold ⊢
    unfold adocoesAtualizadas
    rw [List.countP_map]
    refine le_trans (List.countP_mono_left ?_) hold
    intro x _ hx
    by_cases hxn : x.id = n
    · simp [hxn] at hx; exact absurd hx.symm hk
    · simpa [hxn] using hx

/-- Whatever the persistence layer does, `updateAdocao` keeps the invariant. -/
theorem updateAdocao_preserves_oneAdocaoPerPet (formatDate : Int → String) (fl : Faults)
    (db : Db) (id : String) (body : AdocaoBody) (hinv : OneAdocaoPerPet db) :
    OneAdocaoPerPet (updateAdocao formatDate fl db id body).2 := by
  unfold OneAdocaoPerPet at hinv ⊢
  rcases updateAdocao_adocoes_cases formatDate fl db id body with h | ⟨n, h, hcount⟩
  · rw [h]; exact hinv
  · rw [h]
    exact nodup_petId_adocoesAtualizadas db.adocoes n body.adotanteId body.petId hinv hcount

/-- One request keeps the invariant. -/
theorem step_preserves_oneAdocaoPerPet (formatDate : Int → String) (db : Db) (r : Request)
    (hinv : OneAdocaoPerPet db) : OneAdocaoPerPet (step formatDate db r) := by
  cases r with
  | create fl now body =>
    exact createAdocao_preserves_oneAdocaoPerPet formatDate fl now db body hinv
  | update fl id body =>
    exact updateAdocao_preserves_oneAdocaoPerPet formatDate fl db id body hinv
  | delete fl id => exact deleteAdocao_preserves_oneAdocaoPerPet fl db id hinv

/-- A sequence of requests keeps the invariant. -/
theorem run_preserves_oneAdocaoPerPet (formatDate : Int → String) (rs : List Request) :
    ∀ db : Db, OneAdocaoPerPet db → OneAdocaoPerPet (run formatDate db rs) := by
  induction rs with
  | nil => intro db hinv; exact hinv
  | cons r rs ih =>
    intro db hinv
    exact ih (step formatDate db r) (step_preserves_oneAdocaoPerPet formatDate db r hinv)

/-- Every state reached by the controller from a database without adoptions,
the empty database among them, has at most one adoption per pet. -/
theorem run_from_no_adocoes (formatDate : Int → String) (pets : List Pet)
    (adotantes : List Adotante) (rs : List Request) :
    OneAdocaoPerPet (run formatDate ⟨pets, adotantes, []⟩ rs) :=
  run_preserves_oneAdocaoPerPet formatDate rs ⟨pets, adotantes, []⟩ List.nodup_nil

/-- C4: at most one `adocao` row per pet is an invariant of the controller.
From a state in which no two `adocao` rows share a `petId`, the state after
`createAdocao`, after `updateAdocao` and after `deleteAdocao`, with any
arguments and whatever the persistence layer answers, again has no two
`adocao` rows with the same `petId`, and so has the state after any sequence
of such requests served one after the other. -/
theorem oneAdocaoPerPet_invariant (formatDate : Int → String) (db : Db)
    (hinv : OneAdocaoPerPet db) :
    (∀ fl now body, OneAdocaoPerPet (createAdocao formatDate fl now db body).2) ∧
    (∀ fl id body, OneAdocaoPerPet (updateAdocao formatDate fl db id body).2) ∧
    (∀ fl id, OneAdocaoPerPet (deleteAdocao fl db id).2) ∧
    (∀ rs, OneAdocaoPerPet (run formatDate db rs)) :=
  ⟨fun fl now body => createAdocao_preserves_oneAdocaoPerPet formatDate fl now db body hinv,
   fun fl id body => updateAdocao_preserves_oneAdocaoPerPet formatDate fl db id body hinv,
   fun fl id => deleteAdocao_preserves_oneAdocaoPerPet fl db id hinv,
   fun rs => run_preserves_oneAdocaoPerPet formatDate rs db hinv⟩

theorem oneAdocaoPerPet_invariant_witness :
    OneAdocaoPerPet dbInicial ∧
    run fmtSample dbInicial
      [.create Faults.none 1000 ⟨2, 6⟩, .create Faults.none 2500 ⟨1, 5⟩] = dbTwo ∧
    (updateAdocao fmtSample Faults.none dbTwo "2" ⟨1, 6⟩).1.status = 500 ∧
    OneAdocaoPerPet (updateAdocao fmtSample Faults.none dbTwo "2" ⟨1, 6⟩).2 ∧
    OneAdocaoPerPet (run fmtSample dbInicial
      [.create Faults.none 1000 ⟨2, 6⟩, .create Faults.none 2500 ⟨1, 5⟩,
       .update Faults.none "2" ⟨1, 6⟩, .delete Faults.none "1",
       .update Faults.none "2" ⟨1, 6⟩]) :=
  ⟨by decide, by decide, by decide,
   (oneAdocaoPerPet_invariant fmtSample dbTwo (by decide)).2.1 Faults.none "2" ⟨1, 6⟩,
   (oneAdocaoPerPet_invariant fmtSample dbInicial (by decide)).2.2.2 _⟩

end AmiPets
